import Mathlib

/-!
Verification of the Chowdown candidate-pool and selection engine and of its two
HTTP proxy handlers, as a shallow embedding of the TypeScript sources.

The client component keeps its state in React state variables; here that state
is one record, and each event handler is a pure function from the old state
(plus the adapter response and the random index drawn by Math.random) to a
result and the new state.  JavaScript truthiness on nullable strings is made
explicit (`optTruthy`): both `null` and the empty string are falsy.
-/

namespace Chowdown

/-- Truthiness of a JavaScript `string | null` value: `null` and `""` are falsy. -/
def optTruthy : Option String → Bool
  | none => false
  | some s => !(s == "")

/-- A restaurant record as exchanged between the handlers and the client.
Display-only fields that no logic reads (rating, address, vibe text, dish,
coordinates) are omitted; `raw_price_level` is the extra field the
places-search handler attaches for its strict post-filter (absent, hence
`none`, on every other record). -/
structure Restaurant where
  id : String
  name : String
  cuisine : String
  price_level : Nat
  raw_price_level : Option String := none
deriving DecidableEq, Inhabited

/-- The hardcoded 5-item emergency fallback list shared by both handlers. -/
def emergencyList : List Restaurant :=
  [ { id := "e1", name := "McDonald's", cuisine := "Fast Food", price_level := 1 },
    { id := "e2", name := "Starbucks", cuisine := "Coffee", price_level := 2 },
    { id := "e3", name := "Taco Bell", cuisine := "Fast Food", price_level := 1 },
    { id := "e4", name := "Domino's Pizza", cuisine := "Pizza", price_level := 1 },
    { id := "e5", name := "Subway", cuisine := "Sandwiches", price_level := 1 } ]

/-- The `skippedCuisines` record: a JavaScript object mapping cuisine names to
skip counts, modelled as an association list where the first binding wins. -/
abbrev SkipMap : Type := List (String × Nat)

/-- `skippedCuisines[c] || 0`: look up a count, defaulting to 0. -/
def skipCount : SkipMap → String → Nat
  | [], _ => 0
  | (c, n) :: m, c2 => if c2 = c then n else skipCount m c2

/-- `{...prev, [c]: (prev[c] || 0) + 1}`: bump the count for one cuisine. -/
def bumpSkip (m : SkipMap) (c : String) : SkipMap :=
  (c, skipCount m c + 1) :: m

/-- The JSON body the places-search endpoint answers with:
`{ restaurants, nextPageToken }`. -/
structure ApiResponse where
  restaurants : List Restaurant
  nextPageToken : Option String
deriving DecidableEq, Inhabited

/-- The upstream endpoint as the client sees it: the response is a function of
the page token sent in the request body. -/
def Adapter : Type := Option String → ApiResponse

/-- The React state of the `Home` component that the selection logic touches:
`restaurants` (the Pool), `seenIds` (the SeenSet, membership-relevant only),
`nextPageToken` (the ContinuationToken), `skippedCuisines` and `winner`. -/
structure EngineState where
  restaurants : List Restaurant
  seenIds : List String
  nextPageToken : Option String
  skippedCuisines : SkipMap
  winner : Option Restaurant
deriving Inhabited

/-- The observable outcome of one spin or skip: either a winner is handed to
`startSpinning`, or one of the four distinct alert messages fires. -/
inductive SpinResult where
  /-- `startSpinning(list, random)` runs and the winner is revealed. -/
  | picked (r : Restaurant)
  /-- alert: No matching spots in this batch. Spin again to search deeper! -/
  | needsRetry
  /-- alert: No restaurants found matching your criteria. -/
  | noResults
  /-- alert: You have seen everything! -/
  | seenEverything
  /-- alert: You have seen all the spots in this area! Try changing filters. -/
  | seenAllArea
deriving DecidableEq, Inhabited

/-- `list[Math.floor(Math.random() * list.length)]`: a uniformly random index
is modelled as an arbitrary natural number reduced modulo the length. -/
def pick (l : List Restaurant) (choice : Nat) : Restaurant :=
  l.getD (choice % l.length) default

/-- The body of `handleSpin` after the `/api/restaurants` fetch resolved with
`data`.  Filters the batch by skip counts, then deduplicates against the Pool
by id, appends, and picks from the fresh batch (or the unseen remainder). -/
def handleSpinCore (s : EngineState) (data : ApiResponse) (choice : Nat) :
    SpinResult × EngineState :=
  let newRestaurants := data.restaurants.filter
    (fun r => skipCount s.skippedCuisines r.cuisine < 2)
  if newRestaurants.length == 0 then
    if optTruthy data.nextPageToken then
      (.needsRetry, { s with nextPageToken := data.nextPageToken, winner := none })
    else
      (.noResults, { s with winner := none })
  else
    let uniqueNew := newRestaurants.filter
      (fun r => !(s.restaurants.any (fun ex => ex.id == r.id)))
    if uniqueNew.length == 0 && !(optTruthy data.nextPageToken) then
      (.seenEverything, { s with winner := none })
    else
      let updatedList := s.restaurants ++ uniqueNew
      let available := if uniqueNew.length > 0 then uniqueNew
        else updatedList.filter (fun r => !(s.seenIds.contains r.id))
      if available.length == 0 then
        (.seenEverything, { s with restaurants := updatedList,
                                   nextPageToken := data.nextPageToken, winner := none })
      else
        let random := pick available choice
        (.picked random, { s with restaurants := updatedList,
                                  nextPageToken := data.nextPageToken,
                                  seenIds := random.id :: s.seenIds,
                                  winner := some random })

/-- `handleSpin`: pick from the unseen pool if possible; otherwise, when the
pool is empty or a page token is held, fetch (sending the stored token) and
continue in `handleSpinCore`; otherwise report the area as exhausted.  The
input-validation alerts and the fetch catch-branch are outside this model. -/
def handleSpin (s : EngineState) (adapter : Adapter) (choice : Nat) :
    SpinResult × EngineState :=
  let unseen := s.restaurants.filter (fun r => !(s.seenIds.contains r.id))
  if unseen.length > 0 then
    let random := pick unseen choice
    (.picked random, { s with seenIds := random.id :: s.seenIds, winner := some random })
  else if s.restaurants.length == 0 || optTruthy s.nextPageToken then
    handleSpinCore s (adapter s.nextPageToken) choice
  else
    (.seenAllArea, { s with winner := none })

/-- `handleSkip`: with no current winner this is a no-op (result `none`).
Otherwise bump the skip count of the winner's cuisine, re-derive the eligible
pool (fresh count < 2, not the winner itself, unseen) and pick from it; if it
is empty, delegate to `handleSpin`.  The delegated call reads the render's
(pre-increment) `skippedCuisines` — the queued `setSkippedCuisines` update
still lands afterwards, which the final state update records. -/
def handleSkip (s : EngineState) (adapter : Adapter) (choice : Nat) :
    Option SpinResult × EngineState :=
  match s.winner with
  | none => (none, s)
  | some w =>
    let updatedSkipped := bumpSkip s.skippedCuisines w.cuisine
    let availableRestaurants := s.restaurants.filter (fun r =>
      decide (skipCount updatedSkipped r.cuisine < 2) && !(r.id == w.id)
        && !(s.seenIds.contains r.id))
    if availableRestaurants.length == 0 then
      let res := handleSpin s adapter choice
      (some res.1, { res.2 with skippedCuisines := updatedSkipped })
    else
      let random := pick availableRestaurants choice
      (some (.picked random),
       { s with skippedCuisines := updatedSkipped,
                seenIds := random.id :: s.seenIds, winner := some random })

/-- The `useEffect` with dependency array `[location, vibe, budget, transport]`:
it clears `restaurants`, `seenIds`, `nextPageToken` and `winner`.  It does not
touch `skippedCuisines`. -/
def resetOnFilterChange (s : EngineState) : EngineState :=
  { s with restaurants := [], seenIds := [], nextPageToken := none, winner := none }

/-- One user interaction with the engine while the filter set stays fixed. -/
inductive Op where
  | spin (adapter : Adapter) (choice : Nat)
  | skip (adapter : Adapter) (choice : Nat)

/-- The state after one interaction. -/
def stepOp (s : EngineState) : Op → EngineState
  | .spin a c => (handleSpin s a c).2
  | .skip a c => (handleSkip s a c).2

/-- The state after a sequence of interactions. -/
def runOps (s : EngineState) (ops : List Op) : EngineState :=
  ops.foldl stepOp s

/-- The ids present in the Pool. -/
def poolIds (s : EngineState) : List String :=
  s.restaurants.map (fun r => r.id)

/-! ### The vector-search POST handler

The route reads `{ vibe, price_preference }`, embeds the vibe, calls the
`match_places` RPC and answers with the data — masking every failure as a 200
response carrying the emergency list.  The external effects (embedding call,
RPC call, a thrown exception anywhere in the `try`) are inputs of the model. -/

/-- The `vibe` field of the request body as JSON delivers it. -/
inductive VibeField where
  /-- The key is absent (`vibe` is `undefined`). -/
  | missing
  /-- The key holds a non-string JSON value. -/
  | nonString
  /-- The key holds a string. -/
  | str (s : String)
deriving DecidableEq, Inhabited

/-- `!vibe || typeof vibe !== "string"`: absent, non-string, or the empty
(falsy) string. -/
def vibeInvalid : VibeField → Bool
  | .missing => true
  | .nonString => true
  | .str s => s == ""

/-- The `min_price` / `max_price` pair the handler computes from
`price_preference` (both stay `null` for an unrecognised preference). -/
def vectorPriceRange (p : Option String) : Option Int × Option Int :=
  if p == some "low" then (some 0, some 1)
  else if p == some "medium" then (some 2, some 2)
  else if p == some "high" then (some 3, some 4)
  else (none, none)

/-- The request body of the vector-search endpoint. -/
structure VectorRequest where
  vibe : VibeField
  price_preference : Option String
deriving DecidableEq, Inhabited

/-- The environment of one vector-search request: what the embedding call, the
RPC call and the JavaScript runtime do. -/
structure VectorEnv where
  /-- `embeddingData?.[0]?.embedding` — `none` models a missing embedding. -/
  embedding : Option (List Int)
  /-- The `error` field of the RPC result is set. -/
  rpcError : Bool
  /-- The `data` field of the RPC result (`none` models `null`). -/
  rpcData : Option (List Restaurant)
  /-- Some statement inside the `try` block threw. -/
  threw : Bool
deriving DecidableEq, Inhabited

/-- The vector-search POST handler: an HTTP status paired with the JSON array
it returns.  `NextResponse.json` always answers 200. -/
def vectorPOST (req : VectorRequest) (env : VectorEnv) : Nat × List Restaurant :=
  if env.threw then (200, emergencyList)
  else if vibeInvalid req.vibe then (200, emergencyList)
  else
    match env.embedding with
    | none => (200, emergencyList)
    | some _ =>
      if env.rpcError then (200, emergencyList)
      else
        match env.rpcData with
        | none => (200, emergencyList)
        | some [] => (200, emergencyList)
        | some (d :: ds) => (200, d :: ds)

/-! ### The places-search POST handler

The route reads `{ location, vibe, budget, transport, lat, lng, pageToken }`,
calls the Places text-search API, transforms each returned place into the
client record shape and strictly re-filters by the mapped price levels. -/

/-- One raw place from the upstream API, restricted to the requested field
mask (display-only numeric fields omitted). -/
structure Place where
  id : String
  /-- `place.displayName?.text`. -/
  displayName : Option String
  primaryType : Option String
  types : List String
  /-- `place.priceLevel`, an enum string when present. -/
  priceLevel : Option String
deriving DecidableEq, Inhabited

/-- The `priceLevels` request array computed from the budget (empty for an
unrecognised budget, which disables the strict post-filter). -/
def priceLevelsFor (budget : String) : List String :=
  if budget == "low" then ["PRICE_LEVEL_FREE", "PRICE_LEVEL_INEXPENSIVE"]
  else if budget == "medium" then ["PRICE_LEVEL_MODERATE"]
  else if budget == "high" then ["PRICE_LEVEL_EXPENSIVE", "PRICE_LEVEL_VERY_EXPENSIVE"]
  else []

/-- The `switch (place.priceLevel)` mapping enum strings to tier numbers,
defaulting to 1. -/
def priceLevelNum : Option String → Nat
  | some "PRICE_LEVEL_FREE" => 0
  | some "PRICE_LEVEL_INEXPENSIVE" => 1
  | some "PRICE_LEVEL_MODERATE" => 2
  | some "PRICE_LEVEL_EXPENSIVE" => 3
  | some "PRICE_LEVEL_VERY_EXPENSIVE" => 4
  | _ => 1

/-- Type labels that never count as a cuisine. -/
def ignoredTypes : List String := ["restaurant", "food", "point_of_interest", "establishment"]

/-- `place.types?.find(t => !ignoredTypes.includes(t)) || place.primaryType || "Food"`. -/
def rawCuisine (p : Place) : String :=
  match p.types.find? (fun t => !(ignoredTypes.contains t)) with
  | some t => t
  | none => p.primaryType.getD "Food"

/-- Strip a trailing `_restaurant`, split on underscores, capitalise each word
and join with spaces. -/
def formatCuisine (c : String) : String :=
  let base := if c.endsWith "_restaurant" then c.dropRight 11 else c
  String.intercalate " " ((base.splitOn "_").map (fun w => w.capitalize))

/-- The per-place transformation to the client record shape, keeping the raw
price-level enum for the strict post-filter. -/
def transformPlace (p : Place) : Restaurant :=
  { id := p.id
    name := p.displayName.getD "Unknown Spot"
    cuisine := formatCuisine (rawCuisine p)
    price_level := priceLevelNum p.priceLevel
    raw_price_level := p.priceLevel }

/-- `restaurants.filter(r => priceLevels.length === 0 ||
priceLevels.includes(r.raw_price_level))`: the strict post-hoc re-filter
(`includes(undefined)` is false on a list of strings). -/
def strictPriceFilter (priceLevels : List String) (rs : List Restaurant) : List Restaurant :=
  rs.filter (fun r =>
    if priceLevels.length == 0 then true
    else match r.raw_price_level with
      | some lvl => priceLevels.contains lvl
      | none => false)

/-- The request body of the places-search endpoint (coordinates reduced to
their truthiness, which only selects the request shape sent upstream). -/
structure PlacesRequest where
  location : String
  vibe : String
  budget : String
  transport : String
  hasCoords : Bool
  pageToken : Option String
deriving DecidableEq, Inhabited

/-- What the upstream Places call answered with. -/
structure UpstreamData where
  places : Option (List Place)
  nextPageToken : Option String
deriving DecidableEq, Inhabited

/-- The JSON body of a places-search response: the missing-API-key branch
returns the bare emergency array, every other branch returns the
`{ restaurants, nextPageToken }` wrapper. -/
inductive PlacesBody where
  | bare (items : List Restaurant)
  | paged (restaurants : List Restaurant) (nextPageToken : Option String)
deriving DecidableEq, Inhabited

/-- `data.nextPageToken || null`. -/
def jsTokenOrNull (t : Option String) : Option String :=
  if optTruthy t then t else none

/-- The places-search POST handler as a function of the request, whether the
API key is configured, the upstream answer, and whether the `try` block threw. -/
def placesPOST (req : PlacesRequest) (apiKeyPresent : Bool) (up : UpstreamData)
    (threw : Bool) : Nat × PlacesBody :=
  if threw then (200, .paged emergencyList none)
  else if !apiKeyPresent then (200, .bare emergencyList)
  else
    let emptyCase : Nat × PlacesBody :=
      if optTruthy req.pageToken then (200, .paged [] none)
      else (200, .paged emergencyList none)
    match up.places with
    | none => emptyCase
    | some [] => emptyCase
    | some (q :: qs) =>
      let restaurants := (q :: qs).map transformPlace
      let priceLevels := priceLevelsFor req.budget
      let filteredRestaurants := strictPriceFilter priceLevels restaurants
      (200, .paged filteredRestaurants (jsTokenOrNull up.nextPageToken))

/-! ### Invariant lemmas for the selection engine -/

/-- The SeenSet invariant: every seen id is the id of some Pool entry. -/
def SeenInv (s : EngineState) : Prop :=
  ∀ i ∈ s.seenIds, i ∈ poolIds s

lemma pick_mem (l : List Restaurant) (c : Nat) (h : l ≠ []) : pick l c ∈ l := by
  have hpos : 0 < l.length := List.length_pos.mpr h
  have hlt : c % l.length < l.length := Nat.mod_lt _ hpos
  simp [pick, List.getD, List.getElem?_eq_getElem hlt]

lemma ne_nil_of_not_beq_zero {α : Type} {l : List α} (h : ¬ ((l.length == 0) = true)) :
    l ≠ [] := by
  intro hz
  exact h (by simp [hz])

lemma mem_map_id_append {i : String} {l u : List Restaurant}
    (h : i ∈ l.map (fun r => r.id)) : i ∈ (l ++ u).map (fun r => r.id) := by
  rw [List.map_append]
  exact List.mem_append_left _ h

lemma mem_map_id_of_mem {r : Restaurant} {l : List Restaurant} (h : r ∈ l) :
    r.id ∈ l.map (fun r => r.id) :=
  List.mem_map.mpr ⟨r, h, rfl⟩

lemma handleSpinCore_step (s : EngineState) (d : ApiResponse) (c : Nat) :
    s.seenIds ⊆ (handleSpinCore s d c).2.seenIds ∧
    poolIds s ⊆ poolIds (handleSpinCore s d c).2 ∧
    (SeenInv s → SeenInv (handleSpinCore s d c).2) := by
  simp only [handleSpinCore]
  split
  · split
    · exact ⟨fun i hi => hi, fun i hi => hi, fun h => h⟩
    · exact ⟨fun i hi => hi, fun i hi => hi, fun h => h⟩
  · split
    · exact ⟨fun i hi => hi, fun i hi => hi, fun h => h⟩
    · split
      · rename_i hgt
        split
        · refine ⟨fun i hi => hi, fun i hi => mem_map_id_append hi, ?_⟩
          intro inv i hi
          exact mem_map_id_append (inv i hi)
        · rename_i hav
          have hne2 := ne_nil_of_not_beq_zero hav
          refine ⟨List.subset_cons_self _ _, fun i hi => mem_map_id_append hi, ?_⟩
          intro inv i hi
          rcases List.mem_cons.mp hi with h | h
          · subst h
            have hmem := pick_mem _ c hne2
            exact mem_map_id_of_mem (List.mem_append_right _ hmem)
          · exact mem_map_id_append (inv i h)
      · rename_i hngt
        split
        · refine ⟨fun i hi => hi, fun i hi => mem_map_id_append hi, ?_⟩
          intro inv i hi
          exact mem_map_id_append (inv i hi)
        · rename_i hav
          have hne2 := ne_nil_of_not_beq_zero hav
          refine ⟨List.subset_cons_self _ _, fun i hi => mem_map_id_append hi, ?_⟩
          intro inv i hi
          rcases List.mem_cons.mp hi with h | h
          · subst h
            have hmem := pick_mem _ c hne2
            exact mem_map_id_of_mem (List.filter_subset' _ hmem)
          · exact mem_map_id_append (inv i h)

lemma handleSpin_step (s : EngineState) (a : Adapter) (c : Nat) :
    s.seenIds ⊆ (handleSpin s a c).2.seenIds ∧
    poolIds s ⊆ poolIds (handleSpin s a c).2 ∧
    (SeenInv s → SeenInv (handleSpin s a c).2) := by
  simp only [handleSpin]
  split
  · rename_i hpos
    refine ⟨List.subset_cons_self _ _, fun i hi => hi, ?_⟩
    intro inv i hi
    rcases List.mem_cons.mp hi with h | h
    · subst h
      have hne : s.restaurants.filter (fun r => !(s.seenIds.contains r.id)) ≠ [] :=
        List.length_pos.mp hpos
      have hmem := pick_mem _ c hne
      exact mem_map_id_of_mem (List.filter_subset' _ hmem)
    · exact inv i h
  · split
    · exact handleSpinCore_step s (a s.nextPageToken) c
    · exact ⟨fun i hi => hi, fun i hi => hi, fun h => h⟩

lemma handleSkip_step (s : EngineState) (a : Adapter) (c : Nat) :
    s.seenIds ⊆ (handleSkip s a c).2.seenIds ∧
    poolIds s ⊆ poolIds (handleSkip s a c).2 ∧
    (SeenInv s → SeenInv (handleSkip s a c).2) := by
  simp only [handleSkip]
  split
  · exact ⟨fun i hi => hi, fun i hi => hi, fun h => h⟩
  · rename_i w hw
    split
    · obtain ⟨hA, hB, hC⟩ := handleSpin_step s a c
      exact ⟨hA, hB, fun inv => hC inv⟩
    · rename_i hav
      have hne := ne_nil_of_not_beq_zero hav
      refine ⟨List.subset_cons_self _ _, fun i hi => hi, ?_⟩
      intro inv i hi
      rcases List.mem_cons.mp hi with h | h
      · subst h
        have hmem := pick_mem _ c hne
        exact mem_map_id_of_mem (List.filter_subset' _ hmem)
      · exact inv i h

lemma stepOp_step (s : EngineState) (op : Op) :
    s.seenIds ⊆ (stepOp s op).seenIds ∧ poolIds s ⊆ poolIds (stepOp s op) ∧
    (SeenInv s → SeenInv (stepOp s op)) := by
  cases op with
  | spin a c => exact handleSpin_step s a c
  | skip a c => exact handleSkip_step s a c

lemma runOps_step (s : EngineState) (ops : List Op) :
    s.seenIds ⊆ (runOps s ops).seenIds ∧ poolIds s ⊆ poolIds (runOps s ops) ∧
    (SeenInv s → SeenInv (runOps s ops)) := by
  induction ops generalizing s with
  | nil => exact ⟨fun i hi => hi, fun i hi => hi, fun h => h⟩
  | cons op ops ih =>
    obtain ⟨hA, hB, hC⟩ := stepOp_step s op
    obtain ⟨hA2, hB2, hC2⟩ := ih (stepOp s op)
    exact ⟨hA.trans hA2, hB.trans hB2, fun h => hC2 (hC h)⟩

/-! ### Claim C6 -/

/-- Claim C6: for every sequence of selectNext (handleSpin) and skip
(handleSkip) calls with the filter set held fixed, the SeenSet only grows —
ids are only ever added — and never contains an id that is not present in the
Pool (the Pool itself only grows, so a present id never becomes formerly
present). -/
theorem C6_seen_grows_and_bounded (s : EngineState) (ops : List Op)
    (hInv : ∀ i ∈ s.seenIds, i ∈ poolIds s) :
    (∀ i ∈ s.seenIds, i ∈ (runOps s ops).seenIds) ∧
    (∀ i ∈ (runOps s ops).seenIds, i ∈ poolIds (runOps s ops)) := by
  obtain ⟨hA, _, hC⟩ := runOps_step s ops
  exact ⟨fun i hi => hA hi, hC hInv⟩

def c6Restaurant : Restaurant :=
  { id := "a1", name := "Alpha", cuisine := "Thai", price_level := 1 }

def c6Adapter : Adapter := fun _ => { restaurants := [c6Restaurant], nextPageToken := none }

def c6State : EngineState :=
  { restaurants := [], seenIds := [], nextPageToken := none,
    skippedCuisines := [], winner := none }

def c6Ops : List Op := [Op.spin c6Adapter 0, Op.skip c6Adapter 1]

theorem C6_seen_grows_and_bounded_witness :
    (∀ i ∈ c6State.seenIds, i ∈ poolIds c6State) ∧
    ((∀ i ∈ c6State.seenIds, i ∈ (runOps c6State c6Ops).seenIds) ∧
     (∀ i ∈ (runOps c6State c6Ops).seenIds, i ∈ poolIds (runOps c6State c6Ops))) :=
  ⟨by simp [c6State], C6_seen_grows_and_bounded c6State c6Ops (by simp [c6State])⟩

/-! ### Claim C3 -/

def c3State : EngineState :=
  { restaurants := [{ id := "r1", name := "Rho", cuisine := "Thai", price_level := 2 }],
    seenIds := ["r1"], nextPageToken := some "T",
    skippedCuisines := [("Thai", 1)], winner := none }

/-- Claim C3 counterexample: the filter-change effect resets Pool, SeenSet and
ContinuationToken, but the claim also demands that the SkipCounters reset; on
this concrete state the Thai counter survives the reset at value 1. -/
theorem C3_counterexample :
    (resetOnFilterChange c3State).skippedCuisines = [("Thai", 1)] ∧
    skipCount (resetOnFilterChange c3State).skippedCuisines "Thai" = 1 := by
  exact ⟨rfl, by decide⟩

/-- Claim C3 (amended): when any filter input changes, the effect resets the
Pool, the SeenSet, the ContinuationToken (and the current winner) to empty,
while the SkipCounters are left untouched and persist across the change. -/
theorem C3_reset_keeps_skip_counters (s : EngineState) :
    (resetOnFilterChange s).restaurants = [] ∧
    (resetOnFilterChange s).seenIds = [] ∧
    (resetOnFilterChange s).nextPageToken = none ∧
    (resetOnFilterChange s).winner = none ∧
    (resetOnFilterChange s).skippedCuisines = s.skippedCuisines :=
  ⟨rfl, rfl, rfl, rfl, rfl⟩

/-! ### Claim C8 -/

/-- Claim C8: the vector-search handler answers status 200 on every request,
and on a missing or non-string vibe, a failed embedding, a Supabase RPC error,
a thrown exception, or an empty RPC result set the body is exactly the
hardcoded 5-item emergency list — never an HTTP error code. -/
theorem C8_vector_always_200_fallback (req : VectorRequest) (env : VectorEnv) :
    (vectorPOST req env).1 = 200 ∧
    ((req.vibe = VibeField.missing ∨ req.vibe = VibeField.nonString ∨
      env.embedding = none ∨ env.rpcError = true ∨
      env.rpcData = none ∨ env.rpcData = some [] ∨ env.threw = true) →
      (vectorPOST req env).2 = emergencyList) := by
  constructor
  · simp only [vectorPOST]
    split
    · rfl
    · split
      · rfl
      · split
        · rfl
        · split
          · rfl
          · split
            · rfl
            · rfl
            · rfl
  · intro hfail
    simp only [vectorPOST]
    split
    · rfl
    · rename_i hthr
      split
      · rfl
      · rename_i hvibe
        split
        · rfl
        · rename_i emb hemb
          split
          · rfl
          · rename_i hrerr
            split
            · rfl
            · rfl
            · rename_i d ds hdata
              exfalso
              rcases hfail with h | h | h | h | h | h | h
              · rw [h] at hvibe
                exact hvibe rfl
              · rw [h] at hvibe
                exact hvibe rfl
              · rw [h] at hemb
                exact Option.noConfusion hemb
              · exact hrerr h
              · rw [h] at hdata
                exact Option.noConfusion hdata
              · rw [h] at hdata
                exact List.noConfusion (Option.some.inj hdata)
              · exact hthr h

def c8Request : VectorRequest := { vibe := VibeField.missing, price_preference := some "low" }

def c8Env : VectorEnv :=
  { embedding := none, rpcError := false, rpcData := none, threw := false }

theorem C8_vector_always_200_fallback_witness :
    (vectorPOST c8Request c8Env).1 = 200 ∧
    ((c8Request.vibe = VibeField.missing ∨ c8Request.vibe = VibeField.nonString ∨
      c8Env.embedding = none ∨ c8Env.rpcError = true ∨
      c8Env.rpcData = none ∨ c8Env.rpcData = some [] ∨ c8Env.threw = true) →
      (vectorPOST c8Request c8Env).2 = emergencyList) :=
  C8_vector_always_200_fallback c8Request c8Env

/-! ### Claim C10 -/

/-- Claim C10: the vector-search handler never returns an empty JSON array —
every fallback path returns the 5-item emergency list and the success path
only forwards RPC data with at least one element. -/
theorem C10_vector_never_empty (req : VectorRequest) (env : VectorEnv) :
    emergencyList.length = 5 ∧ 0 < (vectorPOST req env).2.length := by
  refine ⟨rfl, ?_⟩
  simp only [vectorPOST]
  split
  · simp [emergencyList]
  · split
    · simp [emergencyList]
    · split
      · simp [emergencyList]
      · split
        · simp [emergencyList]
        · split
          · simp [emergencyList]
          · simp [emergencyList]
          · simp

/-! ### Claim C9 -/

/-- Claim C9: with the API key configured and no exception, if the upstream
page is empty then the places-search handler answers the explicit empty list
`{restaurants: [], nextPageToken: null}` exactly when a (truthy) pageToken was
supplied, and the emergency fallback list when none was. -/
theorem C9_places_empty_page (req : PlacesRequest) (up : UpstreamData)
    (hempty : up.places = none ∨ up.places = some []) :
    (optTruthy req.pageToken = true →
      placesPOST req true up false = (200, PlacesBody.paged [] none)) ∧
    (optTruthy req.pageToken = false →
      placesPOST req true up false = (200, PlacesBody.paged emergencyList none)) := by
  constructor
  · intro ht
    rcases hempty with h | h <;> simp [placesPOST, h, ht]
  · intro ht
    rcases hempty with h | h <;> simp [placesPOST, h, ht]

def c9Request : PlacesRequest :=
  { location := "Toronto", vibe := "cozy", budget := "medium", transport := "driving",
    hasCoords := false, pageToken := some "P" }

def c9Upstream : UpstreamData := { places := none, nextPageToken := none }

theorem C9_places_empty_page_witness :
    (c9Upstream.places = none ∨ c9Upstream.places = some []) ∧
    ((optTruthy c9Request.pageToken = true →
      placesPOST c9Request true c9Upstream false = (200, PlacesBody.paged [] none)) ∧
     (optTruthy c9Request.pageToken = false →
      placesPOST c9Request true c9Upstream false =
        (200, PlacesBody.paged emergencyList none))) :=
  ⟨Or.inl rfl, C9_places_empty_page c9Request c9Upstream (Or.inl rfl)⟩

/-! ### Claim C5 -/

def c5State : EngineState :=
  { restaurants := [], seenIds := [], nextPageToken := none,
    skippedCuisines := [], winner := none }

/-- Claim C5: from an empty Pool with no ContinuationToken, an adapter answer
`([], some "X")` makes selectNext signal NeedsRetry and store `"X"`; the
second selectNext call then passes `"X"` to the adapter (its fetch branch
consumes `adapter (some "X")`); and an answer `([], none)` on the first call
signals Exhausted (the no-restaurants-found alert). -/
theorem C5_first_fetch_outcomes :
    (∀ (a : Adapter) (c : Nat),
      a none = { restaurants := [], nextPageToken := some "X" } →
      handleSpin c5State a c =
        (SpinResult.needsRetry, { c5State with nextPageToken := some "X" })) ∧
    (∀ (a : Adapter) (c : Nat),
      handleSpin { c5State with nextPageToken := some "X" } a c =
        handleSpinCore { c5State with nextPageToken := some "X" } (a (some "X")) c) ∧
    (∀ (a : Adapter) (c : Nat),
      a none = { restaurants := [], nextPageToken := none } →
      (handleSpin c5State a c).1 = SpinResult.noResults) := by
  refine ⟨?_, ?_, ?_⟩
  · intro a c ha
    show handleSpinCore c5State (a none) c = _
    rw [ha]
    rfl
  · intro a c
    rfl
  · intro a c ha
    show (handleSpinCore c5State (a none) c).1 = _
    rw [ha]
    rfl

def c5AdapterX : Adapter := fun _ => { restaurants := [], nextPageToken := some "X" }

def c5AdapterNone : Adapter := fun _ => { restaurants := [], nextPageToken := none }

theorem C5_first_fetch_outcomes_witness :
    handleSpin c5State c5AdapterX 0 =
      (SpinResult.needsRetry, { c5State with nextPageToken := some "X" }) ∧
    handleSpin { c5State with nextPageToken := some "X" } c5AdapterX 0 =
      handleSpinCore { c5State with nextPageToken := some "X" } (c5AdapterX (some "X")) 0 ∧
    (handleSpin c5State c5AdapterNone 0).1 = SpinResult.noResults :=
  ⟨C5_first_fetch_outcomes.1 c5AdapterX 0 rfl,
   C5_first_fetch_outcomes.2.1 c5AdapterX 0,
   C5_first_fetch_outcomes.2.2 c5AdapterNone 0 rfl⟩

/-! ### Claim C7 -/

lemma placesPOST_ok (req : PlacesRequest) (tk : Option String) (q : Place)
    (qs : List Place) :
    placesPOST req true { places := some (q :: qs), nextPageToken := tk } false =
      (200, PlacesBody.paged
        (strictPriceFilter (priceLevelsFor req.budget) ((q :: qs).map transformPlace))
        (jsTokenOrNull tk)) := rfl

/-- Claim C7: both handlers map the price preference exactly as low → [0,1],
medium → [2,2], high → [3,4] (for the places handler, via the price-level
enums whose numeric tiers are [0,1], [2] and [3,4]); and the places handler
strictly re-filters upstream items post-hoc, so an item tagged tier 1
(PRICE_LEVEL_INEXPENSIVE) never appears in a successful response whose budget
preference is medium. -/
theorem C7_price_mapping_and_strict_refilter :
    vectorPriceRange (some "low") = (some 0, some 1) ∧
    vectorPriceRange (some "medium") = (some 2, some 2) ∧
    vectorPriceRange (some "high") = (some 3, some 4) ∧
    (priceLevelsFor "low").map (fun e => priceLevelNum (some e)) = [0, 1] ∧
    (priceLevelsFor "medium").map (fun e => priceLevelNum (some e)) = [2] ∧
    (priceLevelsFor "high").map (fun e => priceLevelNum (some e)) = [3, 4] ∧
    ∀ (req : PlacesRequest) (up : UpstreamData) (places : List Place) (p : Place)
      (rs : List Restaurant) (tok : Option String),
      req.budget = "medium" → up.places = some places → p ∈ places →
      p.priceLevel = some "PRICE_LEVEL_INEXPENSIVE" →
      placesPOST req true up false = (200, PlacesBody.paged rs tok) →
      transformPlace p ∉ rs := by
  refine ⟨rfl, rfl, rfl, rfl, rfl, rfl, ?_⟩
  intro req up places p rs tok hb hup hp hpl heq hmem
  obtain ⟨pls, tk⟩ := up
  simp only at hup
  subst hup
  cases places with
  | nil => exact List.not_mem_nil _ hp
  | cons q qs =>
    rw [placesPOST_ok] at heq
    injection heq with h200 hbody
    injection hbody with hrs htok
    subst hrs
    rw [hb] at hmem
    simp only [strictPriceFilter] at hmem
    obtain ⟨-, hpred⟩ := List.mem_filter.mp hmem
    simp [priceLevelsFor, transformPlace, hpl] at hpred

def c7Place : Place :=
  { id := "p1", displayName := some "Cheap Eats", primaryType := some "restaurant",
    types := ["restaurant", "thai_restaurant"],
    priceLevel := some "PRICE_LEVEL_INEXPENSIVE" }

def c7Request : PlacesRequest :=
  { location := "Toronto", vibe := "cozy", budget := "medium", transport := "walking",
    hasCoords := true, pageToken := none }

def c7Upstream : UpstreamData := { places := some [c7Place], nextPageToken := none }

theorem C7_price_mapping_and_strict_refilter_witness :
    c7Request.budget = "medium" ∧
    c7Upstream.places = some [c7Place] ∧
    c7Place ∈ [c7Place] ∧
    c7Place.priceLevel = some "PRICE_LEVEL_INEXPENSIVE" ∧
    placesPOST c7Request true c7Upstream false = (200, PlacesBody.paged [] none) ∧
    transformPlace c7Place ∉ ([] : List Restaurant) :=
  ⟨rfl, rfl, List.mem_singleton.mpr rfl, rfl, by decide,
   C7_price_mapping_and_strict_refilter.2.2.2.2.2.2 c7Request c7Upstream [c7Place]
     c7Place [] none rfl rfl (List.mem_singleton.mpr rfl) rfl (by decide)⟩

/-! ### Claim C1 -/

lemma handleSpinCore_picked_fresh (s : EngineState) (d : ApiResponse) (c : Nat)
    (hunseen : s.restaurants.filter (fun r => !(s.seenIds.contains r.id)) = []) :
    ∀ r, (handleSpinCore s d c).1 = SpinResult.picked r →
      skipCount s.skippedCuisines r.cuisine < 2 := by
  intro r h
  simp only [handleSpinCore] at h
  split at h
  · split at h <;> exact SpinResult.noConfusion h
  · split at h
    · exact SpinResult.noConfusion h
    · split at h
      · rename_i hgt
        split at h
        · exact SpinResult.noConfusion h
        · have hr := SpinResult.picked.inj h
          subst hr
          have hmem := pick_mem _ c (List.length_pos.mp hgt)
          have h1 := List.filter_subset' _ hmem
          have h2 := (List.mem_filter.mp h1).2
          exact of_decide_eq_true h2
      · rename_i hngt
        split at h
        · exact SpinResult.noConfusion h
        · rename_i hav
          exfalso
          apply hav
          have hu := List.eq_nil_of_length_eq_zero (Nat.eq_zero_of_not_pos hngt)
          rw [hu, List.append_nil, hunseen]
          rfl

lemma handleSpin_picked_fresh (s : EngineState) (a : Adapter) (c : Nat)
    (hunseen : s.restaurants.filter (fun r => !(s.seenIds.contains r.id)) = []) :
    ∀ r, (handleSpin s a c).1 = SpinResult.picked r →
      skipCount s.skippedCuisines r.cuisine < 2 := by
  intro r h
  simp only [handleSpin] at h
  split at h
  · rename_i hpos
    exfalso
    rw [hunseen] at hpos
    simp at hpos
  · split at h
    · exact handleSpinCore_picked_fresh s (a s.nextPageToken) c hunseen r h
    · exact SpinResult.noConfusion h

lemma handleSkip_picked_fresh (s : EngineState) (a : Adapter) (c : Nat)
    (hunseen : s.restaurants.filter (fun r => !(s.seenIds.contains r.id)) = []) :
    ∀ r, (handleSkip s a c).1 = some (SpinResult.picked r) →
      skipCount s.skippedCuisines r.cuisine < 2 := by
  intro r h
  simp only [handleSkip] at h
  split at h
  · exact Option.noConfusion h
  · rename_i w hw
    split at h
    · exact handleSpin_picked_fresh s a c hunseen r (Option.some.inj h)
    · rename_i hav
      exfalso
      apply hav
      have hnil : s.restaurants.filter (fun r =>
          decide (skipCount (bumpSkip s.skippedCuisines w.cuisine) r.cuisine < 2)
            && !(r.id == w.id) && !(s.seenIds.contains r.id)) = [] := by
        apply List.filter_eq_nil_iff.mpr
        intro x hx hpred
        simp only [Bool.and_eq_true] at hpred
        have hxmem : x ∈ s.restaurants.filter (fun r => !(s.seenIds.contains r.id)) :=
          List.mem_filter.mpr ⟨hx, hpred.2⟩
        rw [hunseen] at hxmem
        exact List.not_mem_nil _ hxmem
      rw [hnil]
      rfl

def c1Restaurant : Restaurant :=
  { id := "r1", name := "Bangkok House", cuisine := "Thai", price_level := 2 }

def c1State : EngineState :=
  { restaurants := [c1Restaurant], seenIds := [], nextPageToken := none,
    skippedCuisines := [("Thai", 2)], winner := none }

def c1Adapter : Adapter := fun _ => { restaurants := [], nextPageToken := none }

/-- Claim C1 counterexample: with the Thai SkipCounter already at 2 and an
unseen Thai candidate in the Pool, the next selectNext call still returns that
Thai candidate — the common no-fetch path filters only by SeenSet and ignores
the SkipCounters. -/
theorem C1_counterexample :
    2 ≤ skipCount c1State.skippedCuisines "Thai" ∧
    (handleSpin c1State c1Adapter 0).1 = SpinResult.picked c1Restaurant ∧
    c1Restaurant.cuisine = "Thai" := by
  refine ⟨by decide, by decide, rfl⟩

/-- Claim C1 (amended): once the Pool holds no unseen candidate — the only
situation in which a fetch can happen — a category whose SkipCounter has
reached 2 is never returned, neither by selectNext (handleSpin) nor by skip
(handleSkip); when unseen Pool entries exist, the no-fetch path applies no
category filter and can return an exhausted category (see the
counterexample). -/
theorem C1_exhausted_category_excluded_after_pool_drained
    (s : EngineState) (a : Adapter) (ch : Nat) (cat : String) (r : Restaurant)
    (hcat : 2 ≤ skipCount s.skippedCuisines cat)
    (hunseen : s.restaurants.filter (fun r => !(s.seenIds.contains r.id)) = [])
    (hr : (handleSpin s a ch).1 = SpinResult.picked r ∨
          (handleSkip s a ch).1 = some (SpinResult.picked r)) :
    r.cuisine ≠ cat := by
  intro heq
  rcases hr with h | h
  · have hlt := handleSpin_picked_fresh s a ch hunseen r h
    rw [heq] at hlt
    omega
  · have hlt := handleSkip_picked_fresh s a ch hunseen r h
    rw [heq] at hlt
    omega

def c1wSeen : Restaurant :=
  { id := "w1", name := "Old Spot", cuisine := "Sushi", price_level := 1 }

def c1wFresh : Restaurant :=
  { id := "w2", name := "New Spot", cuisine := "Sushi", price_level := 1 }

def c1wState : EngineState :=
  { restaurants := [c1wSeen], seenIds := ["w1"], nextPageToken := some "T",
    skippedCuisines := [("Thai", 2)], winner := none }

def c1wAdapter : Adapter := fun _ => { restaurants := [c1wFresh], nextPageToken := none }

theorem C1_exhausted_category_excluded_after_pool_drained_witness :
    2 ≤ skipCount c1wState.skippedCuisines "Thai" ∧
    c1wState.restaurants.filter (fun r => !(c1wState.seenIds.contains r.id)) = [] ∧
    ((handleSpin c1wState c1wAdapter 0).1 = SpinResult.picked c1wFresh ∨
     (handleSkip c1wState c1wAdapter 0).1 = some (SpinResult.picked c1wFresh)) ∧
    c1wFresh.cuisine ≠ "Thai" :=
  ⟨by decide, by decide, Or.inl (by decide),
   C1_exhausted_category_excluded_after_pool_drained c1wState c1wAdapter 0 "Thai"
     c1wFresh (by decide) (by decide) (Or.inl (by decide))⟩

/-! ### Claim C2 -/

lemma uniqueNew_filter_id_nil (s : EngineState) (i : String) (u : List Restaurant)
    (hi : i ∈ poolIds s)
    (hu : ∀ x ∈ u, (!(s.restaurants.any (fun ex => ex.id == x.id))) = true) :
    u.filter (fun r => r.id == i) = [] := by
  apply List.filter_eq_nil_iff.mpr
  intro x hx hxi
  obtain ⟨ex, hex, hexi⟩ := List.mem_map.mp hi
  have hany : s.restaurants.any (fun ex => ex.id == x.id) = false := by
    have := hu x hx
    simpa using this
  have hforall := List.any_eq_false.mp hany ex hex
  apply hforall
  have hxid : x.id = i := by simpa using hxi
  rw [hexi, hxid]
  simp

lemma handleSpinCore_pool_entries (s : EngineState) (d : ApiResponse) (c : Nat)
    (i : String) (hi : i ∈ poolIds s) :
    (handleSpinCore s d c).2.restaurants.filter (fun r => r.id == i) =
      s.restaurants.filter (fun r => r.id == i) := by
  simp only [handleSpinCore]
  split
  · split <;> rfl
  · split
    · rfl
    · split
      · split
        · rw [List.filter_append,
            uniqueNew_filter_id_nil s i _ hi (fun x hx => (List.mem_filter.mp hx).2),
            List.append_nil]
        · rw [List.filter_append,
            uniqueNew_filter_id_nil s i _ hi (fun x hx => (List.mem_filter.mp hx).2),
            List.append_nil]
      · split
        · rw [List.filter_append,
            uniqueNew_filter_id_nil s i _ hi (fun x hx => (List.mem_filter.mp hx).2),
            List.append_nil]
        · rw [List.filter_append,
            uniqueNew_filter_id_nil s i _ hi (fun x hx => (List.mem_filter.mp hx).2),
            List.append_nil]

def c2Restaurant : Restaurant :=
  { id := "a", name := "Alpha", cuisine := "Pizza", price_level := 1 }

def c2State : EngineState :=
  { restaurants := [], seenIds := [], nextPageToken := none,
    skippedCuisines := [], winner := none }

def c2Adapter : Adapter :=
  fun _ => { restaurants := [c2Restaurant, c2Restaurant], nextPageToken := none }

/-- Claim C2 counterexample: a fetched batch that itself repeats a new id is
appended with the repetition — dedup only checks the existing Pool — so after
one spin on an empty Pool the Pool holds the id "a" twice, violating the
no-duplicates invariant as claimed. -/
theorem C2_counterexample :
    ((handleSpin c2State c2Adapter 0).2.restaurants.filter
      (fun r => r.id == "a")).length = 2 ∧
    ¬ ((handleSpin c2State c2Adapter 0).2.restaurants.map (fun r => r.id)).Nodup := by
  refine ⟨by decide, by decide⟩

/-- Claim C2 (amended): insertion deduplicates a fetched batch against the
existing Pool by id, so a batch containing an id already in the Pool leaves
the Pool entries carrying that id unchanged; a within-batch repetition of a
new id, however, is not removed (see the counterexample). -/
theorem C2_dedup_against_existing_pool (s : EngineState) (a : Adapter) (ch : Nat)
    (i : String) (hi : i ∈ poolIds s) :
    (handleSpin s a ch).2.restaurants.filter (fun r => r.id == i) =
      s.restaurants.filter (fun r => r.id == i) := by
  simp only [handleSpin]
  split
  · rfl
  · split
    · exact handleSpinCore_pool_entries s (a s.nextPageToken) ch i hi
    · rfl

def c2wRestaurant : Restaurant :=
  { id := "b", name := "Beta", cuisine := "Sushi", price_level := 2 }

def c2wState : EngineState :=
  { restaurants := [c2wRestaurant], seenIds := ["b"], nextPageToken := some "T",
    skippedCuisines := [], winner := none }

def c2wAdapter : Adapter :=
  fun _ => { restaurants := [c2wRestaurant], nextPageToken := none }

theorem C2_dedup_against_existing_pool_witness :
    "b" ∈ poolIds c2wState ∧
    (handleSpin c2wState c2wAdapter 0).2.restaurants.filter (fun r => r.id == "b") =
      c2wState.restaurants.filter (fun r => r.id == "b") :=
  ⟨by decide, C2_dedup_against_existing_pool c2wState c2wAdapter 0 "b" (by decide)⟩

/-! ### Claim C4 -/

def c4Restaurant : Restaurant :=
  { id := "d1", name := "Dup Spot", cuisine := "Pizza", price_level := 1 }

def c4State : EngineState :=
  { restaurants := [c4Restaurant], seenIds := ["d1"], nextPageToken := some "T",
    skippedCuisines := [], winner := none }

def c4Adapter : Adapter :=
  fun _ => { restaurants := [c4Restaurant], nextPageToken := some "Y" }

/-- Claim C4 counterexample: the fetched batch, after removing items already
in the Pool by id and items of exhausted categories, is empty while nextToken
is present — yet selectNext signals the seen-everything alert, not NeedsRetry,
because the dedup-by-id filter runs only after the NeedsRetry check. -/
theorem C4_counterexample :
    (c4Adapter (some "T")).restaurants.filter
      (fun r => decide (skipCount c4State.skippedCuisines r.cuisine < 2)
        && !(c4State.restaurants.any (fun ex => ex.id == r.id))) = [] ∧
    optTruthy (c4Adapter (some "T")).nextPageToken = true ∧
    (handleSpin c4State c4Adapter 0).1 = SpinResult.seenEverything ∧
    (handleSpin c4State c4Adapter 0).1 ≠ SpinResult.needsRetry := by
  refine ⟨by decide, by decide, by decide, by decide⟩

/-- Claim C4 (amended): when a fetch happens and the batch is empty after
removing items of exhausted categories (SkipCounter ≥ 2) alone, with a
nextToken present, selectNext stores the token and signals NeedsRetry without
chaining another fetch; removal of items already in the Pool happens only
afterwards, and a batch emptied by that dedup yields the seen-everything
signal instead (see the counterexample). -/
theorem C4_needsRetry_on_skip_filtered_empty (s : EngineState) (a : Adapter) (ch : Nat)
    (hunseen : s.restaurants.filter (fun r => !(s.seenIds.contains r.id)) = [])
    (hfetch : (s.restaurants.length == 0 || optTruthy s.nextPageToken) = true)
    (hskipEmpty : (a s.nextPageToken).restaurants.filter
      (fun r => decide (skipCount s.skippedCuisines r.cuisine < 2)) = [])
    (htok : optTruthy (a s.nextPageToken).nextPageToken = true) :
    handleSpin s a ch =
      (SpinResult.needsRetry,
        { s with nextPageToken := (a s.nextPageToken).nextPageToken, winner := none }) := by
  simp [handleSpin, handleSpinCore, hunseen, hfetch, hskipEmpty, htok]
  intro x hx
  by_contra hc
  have hxmem : x ∈ s.restaurants.filter (fun r => !(s.seenIds.contains r.id)) :=
    List.mem_filter.mpr ⟨hx, by simpa using hc⟩
  rw [hunseen] at hxmem
  exact List.not_mem_nil _ hxmem

def c4wRestaurant : Restaurant :=
  { id := "z1", name := "Zeta", cuisine := "Pizza", price_level := 1 }

def c4wState : EngineState :=
  { restaurants := [], seenIds := [], nextPageToken := none,
    skippedCuisines := [("Pizza", 2)], winner := none }

def c4wAdapter : Adapter :=
  fun _ => { restaurants := [c4wRestaurant], nextPageToken := some "Z" }

theorem C4_needsRetry_on_skip_filtered_empty_witness :
    c4wState.restaurants.filter (fun r => !(c4wState.seenIds.contains r.id)) = [] ∧
    (c4wState.restaurants.length == 0 || optTruthy c4wState.nextPageToken) = true ∧
    (c4wAdapter c4wState.nextPageToken).restaurants.filter
      (fun r => decide (skipCount c4wState.skippedCuisines r.cuisine < 2)) = [] ∧
    optTruthy (c4wAdapter c4wState.nextPageToken).nextPageToken = true ∧
    handleSpin c4wState c4wAdapter 0 =
      (SpinResult.needsRetry,
        { c4wState with nextPageToken := (c4wAdapter c4wState.nextPageToken).nextPageToken,
                        winner := none }) :=
  ⟨by decide, by decide, by decide, by decide,
   C4_needsRetry_on_skip_filtered_empty c4wState c4wAdapter 0
     (by decide) (by decide) (by decide) (by decide)⟩

end Chowdown
